import Mathlib

/-!
Verification of the pomobar timer core (src/app.rs, src/models.rs).

The Rust code is shallowly embedded:
* `u32` fields become `Nat`; additions and multiplications that can
  overflow in `u32` are taken modulo `2 ^ 32` (release-mode wrapping
  semantics);
* `chrono::NaiveDate` is abstracted to a `Nat` day index; operations
  that call `Local::now().date_naive()` take the current day as an
  explicit `today` parameter;
* the `Database` collaborator is dropped: every save in the source is
  fire-and-forget (`let _ = self.db...`) and never influences the
  in-memory transition;
* the `f32` progress computation is modelled with exact rationals.
-/

namespace Pomobar

/-- Modulus of the Rust `u32` type. -/
def u32Mod : Nat := 2 ^ 32

/-- `TimerState` from models.rs: the timer state machine. -/
inductive TimerState where
  | Idle : TimerState
  | PomodoroActive (remaining_secs total_secs : Nat) : TimerState
  | PomodoroPaused (remaining_secs total_secs : Nat) : TimerState
  | BreakActive (is_long_break : Bool) (remaining_secs total_secs : Nat) : TimerState
  | BreakFinished : TimerState
deriving Repr, DecidableEq

namespace TimerState

/-- `TimerState::is_idle` from models.rs. -/
def is_idle : TimerState → Bool
  | Idle => true
  | BreakFinished => true
  | _ => false

/-- `TimerState::is_active` from models.rs. -/
def is_active : TimerState → Bool
  | PomodoroActive _ _ => true
  | BreakActive _ _ _ => true
  | _ => false

/-- `TimerState::is_paused` from models.rs. -/
def is_paused : TimerState → Bool
  | PomodoroPaused _ _ => true
  | _ => false

/-- `TimerState::is_pomodoro` from models.rs. -/
def is_pomodoro : TimerState → Bool
  | PomodoroActive _ _ => true
  | PomodoroPaused _ _ => true
  | _ => false

/-- `TimerState::is_break` from models.rs. -/
def is_break : TimerState → Bool
  | BreakActive _ _ _ => true
  | _ => false

/-- `TimerState::progress_percent` from models.rs; the `f32` result is
modelled as an exact rational. -/
def progress_percent : TimerState → Option ℚ
  | PomodoroActive remaining_secs total_secs =>
      if total_secs = 0 then some 1
      else some (1 - (remaining_secs : ℚ) / (total_secs : ℚ))
  | PomodoroPaused remaining_secs total_secs =>
      if total_secs = 0 then some 1
      else some (1 - (remaining_secs : ℚ) / (total_secs : ℚ))
  | BreakActive _ remaining_secs total_secs =>
      if total_secs = 0 then some 1
      else some (1 - (remaining_secs : ℚ) / (total_secs : ℚ))
  | _ => none

/-- `TimerState::remaining_secs` from models.rs. -/
def remaining_secs : TimerState → Option Nat
  | PomodoroActive r _ => some r
  | PomodoroPaused r _ => some r
  | BreakActive _ r _ => some r
  | _ => none

/-- `TimerState::total_secs` from models.rs. -/
def total_secs : TimerState → Option Nat
  | PomodoroActive _ t => some t
  | PomodoroPaused _ t => some t
  | BreakActive _ _ t => some t
  | _ => none

/-- The countdown invariant stated in the spec: in every countdown
variant, `remaining_secs <= total_secs`. -/
def wf : TimerState → Bool
  | PomodoroActive r t => decide (r ≤ t)
  | PomodoroPaused r t => decide (r ≤ t)
  | BreakActive _ r t => decide (r ≤ t)
  | _ => true

end TimerState

/-- `Settings` from models.rs. -/
structure Settings where
  pomodoro_mins : Nat
  short_break_mins : Nat
  long_break_mins : Nat
  pomodoros_for_long_break : Nat
  sound_enabled : Bool
  notifications_enabled : Bool
deriving Repr, DecidableEq

/-- `Settings::default` from models.rs. -/
def Settings.default : Settings :=
  { pomodoro_mins := 25
    short_break_mins := 5
    long_break_mins := 15
    pomodoros_for_long_break := 4
    sound_enabled := true
    notifications_enabled := true }

/-- `Session` from models.rs; `last_date` is the abstract day index. -/
structure Session where
  pomodoros_completed_today : Nat
  total_focus_mins_today : Nat
  pomodoros_in_cycle : Nat
  last_date : Nat
deriving Repr, DecidableEq

namespace Session

/-- `Session::check_day_rollover` from models.rs; `today` stands for
`Local::now().date_naive()`. -/
def check_day_rollover (s : Session) (today : Nat) : Session :=
  if s.last_date ≠ today then
    { s with
        pomodoros_completed_today := 0
        total_focus_mins_today := 0
        last_date := today }
  else s

/-- `Session::complete_pomodoro` from models.rs (u32 wrapping add). -/
def complete_pomodoro (s : Session) (today : Nat) (duration_mins : Nat) : Session :=
  let s := s.check_day_rollover today
  { s with
      pomodoros_completed_today := (s.pomodoros_completed_today + 1) % u32Mod
      total_focus_mins_today := (s.total_focus_mins_today + duration_mins) % u32Mod
      pomodoros_in_cycle := (s.pomodoros_in_cycle + 1) % u32Mod }

/-- `Session::is_long_break_due` from models.rs. -/
def is_long_break_due (s : Session) (threshold : Nat) : Bool :=
  decide (s.pomodoros_in_cycle ≥ threshold)

/-- `Session::reset_cycle` from models.rs. -/
def reset_cycle (s : Session) : Session :=
  { s with pomodoros_in_cycle := 0 }

/-- `Session::reset_today` from models.rs. -/
def reset_today (s : Session) : Session :=
  { s with
      pomodoros_completed_today := 0
      total_focus_mins_today := 0
      pomodoros_in_cycle := 0 }

end Session

/-- `CompletionEvent` from app.rs. -/
inductive CompletionEvent where
  | PomodoroComplete (count : Nat) (is_long_break : Bool) : CompletionEvent
  | BreakComplete : CompletionEvent
deriving Repr, DecidableEq

/-- Spec-side accessor: the `is_long_break` flag carried by a
`PomodoroComplete` event (`false` for `BreakComplete`). -/
def CompletionEvent.isLongFlag : CompletionEvent → Bool
  | .PomodoroComplete _ l => l
  | .BreakComplete => false

/-- `App` from app.rs, without the `Database` handle (all saves in the
source are fire-and-forget and never change the in-memory state). -/
structure App where
  state : TimerState
  settings : Settings
  session : Session
deriving Repr, DecidableEq

namespace App

/-- `App::start_pomodoro` from app.rs (u32 wrapping multiply). -/
def start_pomodoro (a : App) : App :=
  let total_secs := a.settings.pomodoro_mins * 60 % u32Mod
  { a with state := .PomodoroActive total_secs total_secs }

/-- `App::pause` from app.rs. -/
def pause (a : App) : App :=
  match a.state with
  | .PomodoroActive r t => { a with state := .PomodoroPaused r t }
  | _ => a

/-- `App::resume` from app.rs. -/
def resume (a : App) : App :=
  match a.state with
  | .PomodoroPaused r t => { a with state := .PomodoroActive r t }
  | _ => a

/-- `App::stop` from app.rs. -/
def stop (a : App) : App :=
  { a with state := .Idle }

/-- `App::finish_pomodoro` from app.rs (the `db.save_session` call is
fire-and-forget in the source and is dropped here). -/
def finish_pomodoro (a : App) (today : Nat) : App × CompletionEvent :=
  let session := a.session.complete_pomodoro today a.settings.pomodoro_mins
  let is_long := session.is_long_break_due a.settings.pomodoros_for_long_break
  let session := if is_long then session.reset_cycle else session
  let break_mins := if is_long then a.settings.long_break_mins else a.settings.short_break_mins
  let total_secs := break_mins * 60 % u32Mod
  ({ a with
       session := session
       state := .BreakActive is_long total_secs total_secs },
   .PomodoroComplete session.pomodoros_completed_today is_long)

/-- `App::complete_early` from app.rs. -/
def complete_early (a : App) (today : Nat) : App × Option CompletionEvent :=
  match a.state with
  | .PomodoroActive _ _ =>
      let p := a.finish_pomodoro today
      (p.1, some p.2)
  | _ => (a, none)

/-- `App::skip_break` from app.rs. -/
def skip_break (a : App) : App :=
  match a.state with
  | .BreakActive _ _ _ => { a with state := .BreakFinished }
  | _ => a

/-- `App::finish_break` from app.rs. -/
def finish_break (a : App) : App :=
  { a with state := .BreakFinished }

/-- `App::tick` from app.rs; returns the new app together with the
`(state_changed, optional_completion_event)` pair of the source. -/
def tick (a : App) (today : Nat) : App × Bool × Option CompletionEvent :=
  match a.state with
  | .PomodoroActive r t =>
      if r > 0 then
        ({ a with state := .PomodoroActive (r - 1) t }, true, none)
      else
        let p := a.finish_pomodoro today
        (p.1, true, some p.2)
  | .BreakActive l r t =>
      if r > 0 then
        ({ a with state := .BreakActive l (r - 1) t }, true, none)
      else
        (a.finish_break, true, some .BreakComplete)
  | _ => (a, false, none)

/-- `App::update_setting` from app.rs (the save is fire-and-forget). -/
def update_setting (a : App) (updater : Settings → Settings) : App :=
  { a with settings := updater a.settings }

/-- `App::reset_today` from app.rs. -/
def reset_today (a : App) : App :=
  { a with session := a.session.reset_today }

/-- Iterating `tick` a given number of times, collecting every
completion event it returns, in order. -/
def tickRun (a : App) (today : Nat) : Nat → App × List CompletionEvent
  | 0 => (a, [])
  | Nat.succ n =>
      let p := a.tick today
      let rest := p.1.tickRun today n
      (rest.1, (p.2.2).toList ++ rest.2)

end App

/-- Concrete app used to exercise the 60-tick scenario: fresh session,
default settings except a one-minute pomodoro. -/
def appC1 : App :=
  { state := .Idle
    settings := { Settings.default with pomodoro_mins := 1 }
    session := { pomodoros_completed_today := 0, total_focus_mins_today := 0,
                 pomodoros_in_cycle := 0, last_date := 0 } }

/-- Concrete app with a zero-length pomodoro and a long-break threshold
of 1: the very first completion makes a long break due. -/
def appC10 : App :=
  { state := .Idle
    settings := { Settings.default with pomodoro_mins := 0, pomodoros_for_long_break := 1 }
    session := { pomodoros_completed_today := 0, total_focus_mins_today := 0,
                 pomodoros_in_cycle := 0, last_date := 0 } }

/-- Concrete app with a long-break threshold of 2 and a fresh cycle,
used by the two-pomodoro scenario. -/
def appC3 : App :=
  { state := .Idle
    settings := { Settings.default with pomodoros_for_long_break := 2 }
    session := { pomodoros_completed_today := 0, total_focus_mins_today := 0,
                 pomodoros_in_cycle := 0, last_date := 4 } }

/-- Concrete idle app used by witnesses. -/
def appIdle : App :=
  { state := .Idle
    settings := Settings.default
    session := { pomodoros_completed_today := 3, total_focus_mins_today := 75,
                 pomodoros_in_cycle := 3, last_date := 7 } }

/-- Concrete app in the middle of an active pomodoro, used by witnesses. -/
def appActive : App :=
  { state := .PomodoroActive 900 1500
    settings := Settings.default
    session := { pomodoros_completed_today := 2, total_focus_mins_today := 50,
                 pomodoros_in_cycle := 2, last_date := 11 } }

/-- Concrete app whose active pomodoro has counted down to zero, used by
witnesses. -/
def appZero : App :=
  { state := .PomodoroActive 0 1500
    settings := Settings.default
    session := { pomodoros_completed_today := 2, total_focus_mins_today := 50,
                 pomodoros_in_cycle := 2, last_date := 11 } }

/-!  Helper lemmas shared by the claim theorems.  -/

/-- `tick` is the identity (no change, no event) on any state that is
not `PomodoroActive` and not `BreakActive`. -/
theorem tick_of_idle {a : App} (today : Nat) (h : a.state = .Idle) :
    a.tick today = (a, false, none) := by
  simp [App.tick, h]

theorem tick_of_breakFinished {a : App} (today : Nat) (h : a.state = .BreakFinished) :
    a.tick today = (a, false, none) := by
  simp [App.tick, h]

theorem tick_of_paused {a : App} (today : Nat) {r t : Nat}
    (h : a.state = .PomodoroPaused r t) :
    a.tick today = (a, false, none) := by
  simp [App.tick, h]

/-- Iterating `tick` from a fixed point of `tick` stays put and produces
no events. -/
theorem tickRun_of_fixed {a : App} (today : Nat)
    (h : a.tick today = (a, false, none)) :
    ∀ n, a.tickRun today n = (a, []) := by
  intro n
  induction n with
  | zero => rfl
  | succ n ih => simp [App.tickRun, h, ih]

/-- Running `n ≤ r` ticks from an active pomodoro just counts down,
producing no events. -/
theorem tickRun_countdown (today : Nat) :
    ∀ (n : Nat) (a : App) (r t : Nat), a.state = .PomodoroActive r t → n ≤ r →
      a.tickRun today n = ({ a with state := .PomodoroActive (r - n) t }, []) := by
  intro n
  induction n with
  | zero =>
      intro a r t h _
      obtain ⟨st, se, ss⟩ := a
      simp only [App.tickRun, Nat.sub_zero]
      simp_all
  | succ n ih =>
      intro a r t h hn
      have hr : r > 0 := Nat.lt_of_lt_of_le (Nat.succ_pos n) hn
      have hstep : a.tick today = ({ a with state := .PomodoroActive (r - 1) t }, true, none) := by
        simp [App.tick, h, hr]
      have hrest := ih { a with state := .PomodoroActive (r - 1) t } (r - 1) t rfl
        (by omega)
      simp [App.tickRun, hstep, hrest]
      omega

/-- Splitting an iterated tick run into two consecutive runs. -/
theorem tickRun_add (today : Nat) :
    ∀ (m n : Nat) (a : App),
      a.tickRun today (m + n) =
        (((a.tickRun today m).1.tickRun today n).1,
          (a.tickRun today m).2 ++ ((a.tickRun today m).1.tickRun today n).2) := by
  intro m
  induction m with
  | zero => intro n a; simp [App.tickRun]
  | succ m ih =>
      intro n a
      have : m + 1 + n = (m + n) + 1 := by omega
      rw [this]
      simp only [App.tickRun]
      rw [ih]
      simp

/-- `finish_pomodoro` ignores the current timer state. -/
theorem finish_pomodoro_state_irrel (a : App) (st : TimerState) (today : Nat) :
    ({ a with state := st } : App).finish_pomodoro today = a.finish_pomodoro today := rfl

/-- Full description of `finish_pomodoro` when no day rollover happens
and no `u32` counter overflows. -/
theorem finish_pomodoro_spec (a : App) (today : Nat)
    (hd : a.session.last_date = today)
    (hc : a.session.pomodoros_completed_today + 1 < u32Mod)
    (hf : a.session.total_focus_mins_today + a.settings.pomodoro_mins < u32Mod)
    (hy : a.session.pomodoros_in_cycle + 1 < u32Mod) :
    a.finish_pomodoro today =
      ({ state := .BreakActive
            (decide (a.settings.pomodoros_for_long_break ≤ a.session.pomodoros_in_cycle + 1))
            ((if a.settings.pomodoros_for_long_break ≤ a.session.pomodoros_in_cycle + 1
              then a.settings.long_break_mins else a.settings.short_break_mins) * 60 % u32Mod)
            ((if a.settings.pomodoros_for_long_break ≤ a.session.pomodoros_in_cycle + 1
              then a.settings.long_break_mins else a.settings.short_break_mins) * 60 % u32Mod)
         settings := a.settings
         session :=
           { pomodoros_completed_today := a.session.pomodoros_completed_today + 1
             total_focus_mins_today :=
               a.session.total_focus_mins_today + a.settings.pomodoro_mins
             pomodoros_in_cycle :=
               if a.settings.pomodoros_for_long_break ≤ a.session.pomodoros_in_cycle + 1
               then 0 else a.session.pomodoros_in_cycle + 1
             last_date := today } },
       .PomodoroComplete (a.session.pomodoros_completed_today + 1)
         (decide (a.settings.pomodoros_for_long_break ≤ a.session.pomodoros_in_cycle + 1))) := by
  have hroll : a.session.check_day_rollover today = a.session := by
    simp [Session.check_day_rollover, hd]
  by_cases hil : a.settings.pomodoros_for_long_break ≤ a.session.pomodoros_in_cycle + 1 <;>
    simp [App.finish_pomodoro, Session.complete_pomodoro, hroll,
      Session.is_long_break_due, Session.reset_cycle,
      Nat.mod_eq_of_lt hc, Nat.mod_eq_of_lt hf, Nat.mod_eq_of_lt hy, hil, hd]

/-- Claim C5: when `last_date` differs from the current date,
`check_day_rollover` zeroes both daily counters and advances
`last_date` while leaving `pomodoros_in_cycle` unchanged; when the
dates agree it changes nothing. -/
theorem c5_day_rollover (s : Session) (today : Nat) :
    (s.last_date ≠ today →
        s.check_day_rollover today =
          { pomodoros_completed_today := 0
            total_focus_mins_today := 0
            pomodoros_in_cycle := s.pomodoros_in_cycle
            last_date := today }) ∧
    (s.last_date = today → s.check_day_rollover today = s) := by
  constructor <;> intro h <;> simp [Session.check_day_rollover, h]

/-- Claim C5 witness: both branches of `c5_day_rollover` applied at a
concrete session. -/
theorem c5_day_rollover_witness :
    ((3 : Nat) ≠ 9 ∧
      Session.check_day_rollover ⟨5, 120, 2, 3⟩ 9 = ⟨0, 0, 2, 9⟩) ∧
    ((9 : Nat) = 9 ∧
      Session.check_day_rollover ⟨5, 120, 2, 9⟩ 9 = ⟨5, 120, 2, 9⟩) :=
  ⟨⟨by decide, (c5_day_rollover ⟨5, 120, 2, 3⟩ 9).1 (by decide)⟩,
   ⟨rfl, (c5_day_rollover ⟨5, 120, 2, 9⟩ 9).2 rfl⟩⟩

/-- Claim C7: `tick` on an app whose state is `Idle`, `BreakFinished`
or `PomodoroPaused` reports no change and no event and leaves the
whole app (state, session, settings) unchanged. -/
theorem c7_tick_frame (a : App) (today : Nat)
    (h : a.state = .Idle ∨ a.state = .BreakFinished ∨
         ∃ r t, a.state = .PomodoroPaused r t) :
    a.tick today = (a, false, none) := by
  rcases h with h | h | ⟨r, t, h⟩
  · exact tick_of_idle today h
  · exact tick_of_breakFinished today h
  · exact tick_of_paused today h

/-- Claim C7 witness: `c7_tick_frame` applied to a concrete idle app. -/
theorem c7_tick_frame_witness :
    (appIdle.state = .Idle ∨ appIdle.state = .BreakFinished ∨
      ∃ r t, appIdle.state = .PomodoroPaused r t) ∧
    appIdle.tick 7 = (appIdle, false, none) :=
  ⟨Or.inl rfl, c7_tick_frame appIdle 7 (Or.inl rfl)⟩

/-- Claim C2: `tick` in `PomodoroActive`: with `remaining_secs > 0` it
decrements by one and reports changed with no event; with
`remaining_secs = 0` it completes the pomodoro through
`Session.complete_pomodoro`, resets the cycle exactly when a long
break is due, enters a `BreakActive` phase sized by the matching break
setting, and returns the `PomodoroComplete` event carrying the updated
daily count and the long-break flag. -/
theorem c2_tick_active (a : App) (today r t : Nat)
    (h : a.state = .PomodoroActive r t) :
    (0 < r →
        a.tick today = ({ a with state := .PomodoroActive (r - 1) t }, true, none)) ∧
    (r = 0 →
        a.tick today =
          (let s1 := a.session.complete_pomodoro today a.settings.pomodoro_mins
           let is_long := s1.is_long_break_due a.settings.pomodoros_for_long_break
           let s2 := if is_long then s1.reset_cycle else s1
           let break_mins :=
             if is_long then a.settings.long_break_mins else a.settings.short_break_mins
           let bt := break_mins * 60 % u32Mod
           ({ a with session := s2, state := .BreakActive is_long bt bt }, true,
            some (.PomodoroComplete s1.pomodoros_completed_today is_long)))) := by
  constructor
  · intro hr
    simp [App.tick, h, hr]
  · intro hr
    subst hr
    by_cases hil : (a.session.complete_pomodoro today
        a.settings.pomodoro_mins).is_long_break_due a.settings.pomodoros_for_long_break <;>
      simp [App.tick, h, App.finish_pomodoro, hil, Session.reset_cycle]

/-- Claim C2 witness: both branches of `c2_tick_active`, at a midway
active app and at an expired active app. -/
theorem c2_tick_active_witness :
    (appActive.state = .PomodoroActive 900 1500 ∧
      appActive.tick 11 =
        ({ appActive with state := .PomodoroActive 899 1500 }, true, none)) ∧
    (appZero.state = .PomodoroActive 0 1500 ∧
      appZero.tick 11 =
        (let s1 := appZero.session.complete_pomodoro 11 appZero.settings.pomodoro_mins
         let is_long := s1.is_long_break_due appZero.settings.pomodoros_for_long_break
         let s2 := if is_long then s1.reset_cycle else s1
         let break_mins :=
           if is_long then appZero.settings.long_break_mins
           else appZero.settings.short_break_mins
         let bt := break_mins * 60 % u32Mod
         ({ appZero with session := s2, state := .BreakActive is_long bt bt }, true,
          some (.PomodoroComplete s1.pomodoros_completed_today is_long)))) :=
  ⟨⟨rfl, (c2_tick_active appActive 11 900 1500 rfl).1 (by decide)⟩,
   ⟨rfl, (c2_tick_active appZero 11 0 1500 rfl).2 rfl⟩⟩

/-- Claim C8: from `PomodoroActive{r, t}`, `pause` freezes the
countdown at `PomodoroPaused{r, t}`, any number of ticks leaves the
paused app untouched, and `resume` restores exactly the original
active app; `pause` is a no-op outside `PomodoroActive` and `resume`
is a no-op outside `PomodoroPaused`. -/
theorem c8_pause_resume (a : App) (today n : Nat) :
    (∀ r t, a.state = .PomodoroActive r t →
        a.pause = { a with state := .PomodoroPaused r t } ∧
        (a.pause.tickRun today n).1 = a.pause ∧
        (a.pause.tickRun today n).2 = [] ∧
        (a.pause.tickRun today n).1.state = .PomodoroPaused r t ∧
        (a.pause.tickRun today n).1.resume = a) ∧
    ((∀ r t, a.state ≠ .PomodoroActive r t) → a.pause = a) ∧
    ((∀ r t, a.state ≠ .PomodoroPaused r t) → a.resume = a) := by
  refine ⟨?_, ?_, ?_⟩
  · intro r t h
    have hp : a.pause = { a with state := .PomodoroPaused r t } := by
      simp [App.pause, h]
    have hfix := tickRun_of_fixed today
      (tick_of_paused (a := { a with state := .PomodoroPaused r t }) today rfl) n
    refine ⟨hp, ?_, ?_, ?_, ?_⟩
    · rw [hp, hfix]
    · rw [hp, hfix]
    · rw [hp, hfix]
    · rw [hp, hfix]
      obtain ⟨st, se, ss⟩ := a
      simp only at h
      simp [App.resume, h]
  · intro hne
    obtain ⟨st, se, ss⟩ := a
    cases st <;> simp_all [App.pause]
  · intro hne
    obtain ⟨st, se, ss⟩ := a
    cases st <;> simp_all [App.resume]

/-- Claim C8 witness: `c8_pause_resume` at a concrete active app with
five ticks while paused. -/
theorem c8_pause_resume_witness :
    appActive.state = .PomodoroActive 900 1500 ∧
    appActive.pause = { appActive with state := .PomodoroPaused 900 1500 } ∧
    (appActive.pause.tickRun 11 5).1 = appActive.pause ∧
    (appActive.pause.tickRun 11 5).2 = [] ∧
    (appActive.pause.tickRun 11 5).1.state = .PomodoroPaused 900 1500 ∧
    (appActive.pause.tickRun 11 5).1.resume = appActive :=
  ⟨rfl,
    ((c8_pause_resume appActive 11 5).1 900 1500 rfl).1,
    ((c8_pause_resume appActive 11 5).1 900 1500 rfl).2.1,
    ((c8_pause_resume appActive 11 5).1 900 1500 rfl).2.2.1,
    ((c8_pause_resume appActive 11 5).1 900 1500 rfl).2.2.2.1,
    ((c8_pause_resume appActive 11 5).1 900 1500 rfl).2.2.2.2⟩

/-- The state produced by `finish_pomodoro` always satisfies the
countdown invariant. -/
theorem finish_pomodoro_wf (a : App) (today : Nat) :
    (a.finish_pomodoro today).1.state.wf = true := by
  simp [App.finish_pomodoro, TimerState.wf]

/-- The daily counters written by `finish_pomodoro` when no rollover
happens and neither `u32` daily counter overflows: one more completed
pomodoro and a full `pomodoro_mins` of extra focus time. -/
theorem finish_pomodoro_counts (a : App) (today : Nat)
    (hd : a.session.last_date = today)
    (hc : a.session.pomodoros_completed_today + 1 < u32Mod)
    (hf : a.session.total_focus_mins_today + a.settings.pomodoro_mins < u32Mod) :
    (a.finish_pomodoro today).1.session.pomodoros_completed_today
      = a.session.pomodoros_completed_today + 1 ∧
    (a.finish_pomodoro today).1.session.total_focus_mins_today
      = a.session.total_focus_mins_today + a.settings.pomodoro_mins := by
  have hroll : a.session.check_day_rollover today = a.session := by
    simp [Session.check_day_rollover, hd]
  simp [App.finish_pomodoro, Session.complete_pomodoro, hroll, Session.reset_cycle,
    Nat.mod_eq_of_lt hc, Nat.mod_eq_of_lt hf,
    apply_ite Session.pomodoros_completed_today, apply_ite Session.total_focus_mins_today]

/-- `start_pomodoro` establishes the countdown invariant. -/
theorem wf_start (a : App) : a.start_pomodoro.state.wf = true := by
  simp [App.start_pomodoro, TimerState.wf]

/-- `pause` preserves the countdown invariant. -/
theorem wf_pause (a : App) (h : a.state.wf = true) : a.pause.state.wf = true := by
  obtain ⟨st, se, ss⟩ := a
  cases st <;> simp_all [App.pause, TimerState.wf]

/-- `resume` preserves the countdown invariant. -/
theorem wf_resume (a : App) (h : a.state.wf = true) : a.resume.state.wf = true := by
  obtain ⟨st, se, ss⟩ := a
  cases st <;> simp_all [App.resume, TimerState.wf]

/-- `stop` preserves the countdown invariant. -/
theorem wf_stop (a : App) : a.stop.state.wf = true := by
  simp [App.stop, TimerState.wf]

/-- `complete_early` preserves the countdown invariant. -/
theorem wf_complete_early (a : App) (today : Nat) (h : a.state.wf = true) :
    (a.complete_early today).1.state.wf = true := by
  obtain ⟨st, se, ss⟩ := a
  cases st with
  | PomodoroActive r t =>
      simp only [App.complete_early]
      exact finish_pomodoro_wf _ today
  | Idle => exact h
  | BreakFinished => exact h
  | PomodoroPaused r t => exact h
  | BreakActive l r t => exact h

/-- `skip_break` preserves the countdown invariant. -/
theorem wf_skip_break (a : App) (h : a.state.wf = true) : a.skip_break.state.wf = true := by
  obtain ⟨st, se, ss⟩ := a
  cases st <;> simp_all [App.skip_break, TimerState.wf]

/-- `tick` preserves the countdown invariant. -/
theorem wf_tick (a : App) (today : Nat) (h : a.state.wf = true) :
    (a.tick today).1.state.wf = true := by
  obtain ⟨st, se, ss⟩ := a
  cases st with
  | PomodoroActive r t =>
      simp only [TimerState.wf, decide_eq_true_eq] at h
      by_cases hr : r > 0
      · simp only [App.tick, if_pos hr]
        simp only [TimerState.wf, decide_eq_true_eq]
        omega
      · simp only [App.tick, if_neg hr]
        exact finish_pomodoro_wf _ today
  | BreakActive l r t =>
      simp only [TimerState.wf, decide_eq_true_eq] at h
      by_cases hr : r > 0
      · simp only [App.tick, if_pos hr]
        simp only [TimerState.wf, decide_eq_true_eq]
        omega
      · simp only [App.tick, if_neg hr]
        simp [App.finish_break, TimerState.wf]
  | Idle => exact h
  | BreakFinished => exact h
  | PomodoroPaused r t => exact h

/-- `pause` never changes the total length of the current phase. -/
theorem total_pause (a : App) : a.pause.state.total_secs = a.state.total_secs := by
  obtain ⟨st, se, ss⟩ := a
  cases st <;> simp [App.pause, TimerState.total_secs]

/-- `resume` never changes the total length of the current phase. -/
theorem total_resume (a : App) : a.resume.state.total_secs = a.state.total_secs := by
  obtain ⟨st, se, ss⟩ := a
  cases st <;> simp [App.resume, TimerState.total_secs]

/-- A `tick` that completes no phase never changes the total length of
the current phase. -/
theorem total_tick_of_no_event (a : App) (today : Nat)
    (h2 : (a.tick today).2.2 = none) :
    (a.tick today).1.state.total_secs = a.state.total_secs := by
  obtain ⟨st, se, ss⟩ := a
  cases st with
  | PomodoroActive r t =>
      by_cases hr : r > 0
      · simp [App.tick, hr, TimerState.total_secs]
      · simp [App.tick, hr] at h2
  | BreakActive l r t =>
      by_cases hr : r > 0
      · simp [App.tick, hr, TimerState.total_secs]
      · simp [App.tick, hr] at h2
  | Idle => rfl
  | BreakFinished => rfl
  | PomodoroPaused r t => rfl

/-- Claim C6: the countdown invariant `remaining_secs ≤ total_secs` is
preserved by every engine operation, `update_setting` leaves the timer
state untouched (a settings change does not resize an in-flight
phase), and `pause`, `resume` and any non-completing `tick` keep
`total_secs` of the current phase unchanged. -/
theorem c6_invariant (a : App) (today : Nat) (f : Settings → Settings)
    (h : a.state.wf = true) :
    a.start_pomodoro.state.wf = true ∧
    a.pause.state.wf = true ∧
    a.resume.state.wf = true ∧
    a.stop.state.wf = true ∧
    (a.complete_early today).1.state.wf = true ∧
    a.skip_break.state.wf = true ∧
    (a.tick today).1.state.wf = true ∧
    (a.update_setting f).state = a.state ∧
    a.pause.state.total_secs = a.state.total_secs ∧
    a.resume.state.total_secs = a.state.total_secs ∧
    ((a.tick today).2.2 = none →
        (a.tick today).1.state.total_secs = a.state.total_secs) :=
  ⟨wf_start a, wf_pause a h, wf_resume a h, wf_stop a, wf_complete_early a today h,
   wf_skip_break a h, wf_tick a today h, rfl, total_pause a, total_resume a,
   fun h2 => total_tick_of_no_event a today h2⟩

/-- Claim C6 witness: `c6_invariant` at a concrete mid-countdown app
with the identity settings updater. -/
theorem c6_invariant_witness :
    appActive.state.wf = true ∧
    (appActive.start_pomodoro.state.wf = true ∧
     appActive.pause.state.wf = true ∧
     appActive.resume.state.wf = true ∧
     appActive.stop.state.wf = true ∧
     (appActive.complete_early 11).1.state.wf = true ∧
     appActive.skip_break.state.wf = true ∧
     (appActive.tick 11).1.state.wf = true ∧
     (appActive.update_setting id).state = appActive.state ∧
     appActive.pause.state.total_secs = appActive.state.total_secs ∧
     appActive.resume.state.total_secs = appActive.state.total_secs ∧
     ((appActive.tick 11).2.2 = none →
         (appActive.tick 11).1.state.total_secs = appActive.state.total_secs)) :=
  ⟨by decide, c6_invariant appActive 11 id (by decide)⟩

/-- Core numeric fact behind the progress computation: the guarded
value `if total = 0 then 1 else 1 - remaining/total` lies in `[0, 1]`
when `remaining ≤ total`, equals `1` when either field is zero, and
equals `1 - remaining/total` whenever `total > 0`. -/
theorem progress_core (r t : Nat) (h : r ≤ t) (q : ℚ)
    (hq : (if t = 0 then some (1 : ℚ) else some (1 - (r : ℚ) / (t : ℚ))) = some q) :
    0 ≤ q ∧ q ≤ 1 ∧ ((r = 0 ∨ t = 0) → q = 1) ∧
    (0 < t → q = 1 - (r : ℚ) / (t : ℚ)) := by
  by_cases ht : t = 0
  · rw [if_pos ht] at hq
    obtain rfl : (1 : ℚ) = q := Option.some.inj hq
    refine ⟨by norm_num, le_refl 1, fun _ => rfl, fun h0 => absurd h0 (by omega)⟩
  · rw [if_neg ht] at hq
    obtain rfl : (1 - (r : ℚ) / (t : ℚ)) = q := Option.some.inj hq
    have htq : (0 : ℚ) < (t : ℚ) := by exact_mod_cast Nat.pos_of_ne_zero ht
    have h0 : (0 : ℚ) ≤ (r : ℚ) / (t : ℚ) := by positivity
    have h1 : (r : ℚ) / (t : ℚ) ≤ 1 :=
      div_le_one_of_le₀ (by exact_mod_cast h) (le_of_lt htq)
    refine ⟨by linarith, by linarith, ?_, fun _ => rfl⟩
    rintro (hr | hzt)
    · subst hr
      simp
    · exact absurd hzt ht

/-- Claim C9: under the countdown invariant, the progress fraction is
in `[0, 1]`, equals exactly `1` whenever `remaining_secs = 0` or
`total_secs = 0` (the divide-by-zero guard), and for a positive total
equals `1 - remaining_secs / total_secs`. -/
theorem c9_progress (s : TimerState) (q : ℚ)
    (hw : s.wf = true) (hp : s.progress_percent = some q) :
    0 ≤ q ∧ q ≤ 1 ∧
    ((s.remaining_secs = some 0 ∨ s.total_secs = some 0) → q = 1) ∧
    (∀ r t, s.remaining_secs = some r → s.total_secs = some t → 0 < t →
        q = 1 - (r : ℚ) / (t : ℚ)) := by
  cases s with
  | Idle => simp [TimerState.progress_percent] at hp
  | BreakFinished => simp [TimerState.progress_percent] at hp
  | PomodoroActive r t =>
      simp only [TimerState.wf, decide_eq_true_eq] at hw
      simp only [TimerState.progress_percent] at hp
      obtain ⟨h0, h1, hz, hd⟩ := progress_core r t hw q hp
      refine ⟨h0, h1, ?_, ?_⟩
      · rintro (hr | ht)
        · simp only [TimerState.remaining_secs, Option.some_inj] at hr
          exact hz (Or.inl hr)
        · simp only [TimerState.total_secs, Option.some_inj] at ht
          exact hz (Or.inr ht)
      · intro r' t' hr' ht' hpos
        simp only [TimerState.remaining_secs, Option.some_inj] at hr'
        simp only [TimerState.total_secs, Option.some_inj] at ht'
        subst hr'; subst ht'
        exact hd hpos
  | PomodoroPaused r t =>
      simp only [TimerState.wf, decide_eq_true_eq] at hw
      simp only [TimerState.progress_percent] at hp
      obtain ⟨h0, h1, hz, hd⟩ := progress_core r t hw q hp
      refine ⟨h0, h1, ?_, ?_⟩
      · rintro (hr | ht)
        · simp only [TimerState.remaining_secs, Option.some_inj] at hr
          exact hz (Or.inl hr)
        · simp only [TimerState.total_secs, Option.some_inj] at ht
          exact hz (Or.inr ht)
      · intro r' t' hr' ht' hpos
        simp only [TimerState.remaining_secs, Option.some_inj] at hr'
        simp only [TimerState.total_secs, Option.some_inj] at ht'
        subst hr'; subst ht'
        exact hd hpos
  | BreakActive l r t =>
      simp only [TimerState.wf, decide_eq_true_eq] at hw
      simp only [TimerState.progress_percent] at hp
      obtain ⟨h0, h1, hz, hd⟩ := progress_core r t hw q hp
      refine ⟨h0, h1, ?_, ?_⟩
      · rintro (hr | ht)
        · simp only [TimerState.remaining_secs, Option.some_inj] at hr
          exact hz (Or.inl hr)
        · simp only [TimerState.total_secs, Option.some_inj] at ht
          exact hz (Or.inr ht)
      · intro r' t' hr' ht' hpos
        simp only [TimerState.remaining_secs, Option.some_inj] at hr'
        simp only [TimerState.total_secs, Option.some_inj] at ht'
        subst hr'; subst ht'
        exact hd hpos

/-- Claim C9 witness: `c9_progress` on a half-elapsed countdown. -/
theorem c9_progress_witness :
    (TimerState.PomodoroActive 30 60).wf = true ∧
    (TimerState.PomodoroActive 30 60).progress_percent = some (1 / 2 : ℚ) ∧
    (0 ≤ (1 / 2 : ℚ) ∧ (1 / 2 : ℚ) ≤ 1 ∧
      (((TimerState.PomodoroActive 30 60).remaining_secs = some 0 ∨
        (TimerState.PomodoroActive 30 60).total_secs = some 0) → (1 / 2 : ℚ) = 1) ∧
      (∀ r t, (TimerState.PomodoroActive 30 60).remaining_secs = some r →
          (TimerState.PomodoroActive 30 60).total_secs = some t → 0 < t →
          (1 / 2 : ℚ) = 1 - (r : ℚ) / (t : ℚ))) :=
  ⟨by decide,
   by norm_num [TimerState.progress_percent],
   c9_progress (.PomodoroActive 30 60) (1 / 2 : ℚ) (by decide)
     (by norm_num [TimerState.progress_percent])⟩

/-- Claim C4: on an active pomodoro, `complete_early` produces exactly
the app and event that `tick` produces from the same app with
`remaining_secs = 0`; in particular (absent rollover and overflow) it
credits a full `pomodoro_mins` of focus time and one completed
pomodoro. In every other state it returns no event and changes
nothing. -/
theorem c4_complete_early (a : App) (today : Nat) :
    (∀ r t, a.state = .PomodoroActive r t →
        (a.complete_early today =
          (let p := ({ a with state := .PomodoroActive 0 t } : App).tick today
           (p.1, p.2.2))) ∧
        (a.session.last_date = today →
         a.session.pomodoros_completed_today + 1 < u32Mod →
         a.session.total_focus_mins_today + a.settings.pomodoro_mins < u32Mod →
           (a.complete_early today).1.session.pomodoros_completed_today
             = a.session.pomodoros_completed_today + 1 ∧
           (a.complete_early today).1.session.total_focus_mins_today
             = a.session.total_focus_mins_today + a.settings.pomodoro_mins)) ∧
    ((∀ r t, a.state ≠ .PomodoroActive r t) → a.complete_early today = (a, none)) := by
  constructor
  · intro r t h
    have hceq : a.complete_early today
        = ((a.finish_pomodoro today).1, some (a.finish_pomodoro today).2) := by
      simp [App.complete_early, h]
    constructor
    · have htick : ({ a with state := .PomodoroActive 0 t } : App).tick today
          = ((a.finish_pomodoro today).1, true, some (a.finish_pomodoro today).2) := by
        simp [App.tick, finish_pomodoro_state_irrel]
      rw [hceq]
      simp [htick]
    · intro hd hc hf
      rw [hceq]
      exact finish_pomodoro_counts a today hd hc hf
  · intro hne
    obtain ⟨st, se, ss⟩ := a
    cases st <;> simp_all [App.complete_early]

/-- Claim C4 witness: `c4_complete_early` at a concrete mid-countdown
app (active branch) and at a concrete idle app (no-op branch). -/
theorem c4_complete_early_witness :
    (appActive.state = .PomodoroActive 900 1500 ∧
      appActive.complete_early 11 =
        (let p := ({ appActive with state := .PomodoroActive 0 1500 } : App).tick 11
         (p.1, p.2.2)) ∧
      (appActive.complete_early 11).1.session.pomodoros_completed_today = 3 ∧
      (appActive.complete_early 11).1.session.total_focus_mins_today = 75) ∧
    ((∀ r t, appIdle.state ≠ .PomodoroActive r t) ∧
      appIdle.complete_early 7 = (appIdle, none)) :=
  ⟨⟨rfl,
    ((c4_complete_early appActive 11).1 900 1500 rfl).1,
    (((c4_complete_early appActive 11).1 900 1500 rfl).2 rfl (by decide) (by decide)).1,
    (((c4_complete_early appActive 11).1 900 1500 rfl).2 rfl (by decide) (by decide)).2⟩,
   ⟨fun r t => by simp [appIdle],
    (c4_complete_early appIdle 7).2 (fun r t => by simp [appIdle])⟩⟩

/-- The cycle counter is untouched by a day rollover. -/
theorem rollover_cycle (s : Session) (today : Nat) :
    (s.check_day_rollover today).pomodoros_in_cycle = s.pomodoros_in_cycle := by
  simp [Session.check_day_rollover, apply_ite Session.pomodoros_in_cycle]

/-- The cycle counter after `complete_pomodoro`, absent overflow. -/
theorem complete_pomodoro_cycle (s : Session) (today mins : Nat)
    (hy : s.pomodoros_in_cycle + 1 < u32Mod) :
    (s.complete_pomodoro today mins).pomodoros_in_cycle = s.pomodoros_in_cycle + 1 := by
  simp [Session.complete_pomodoro, rollover_cycle, Nat.mod_eq_of_lt hy]

/-- Claim C3: a pomodoro completion reports a long break exactly when
the post-increment cycle counter reaches the threshold, and zeroes the
cycle counter exactly in that case; concretely, with threshold 2 and a
fresh cycle, the first completion yields a short break and the second
(after skipping the first break) a long break with the cycle counter
back at 0. -/
theorem c3_long_break_cycle (a : App) (today : Nat) :
    (a.session.pomodoros_in_cycle + 1 < u32Mod →
        ((a.finish_pomodoro today).2).isLongFlag
          = decide (a.settings.pomodoros_for_long_break ≤ a.session.pomodoros_in_cycle + 1) ∧
        (a.finish_pomodoro today).1.session.pomodoros_in_cycle
          = (if a.settings.pomodoros_for_long_break ≤ a.session.pomodoros_in_cycle + 1
             then 0 else a.session.pomodoros_in_cycle + 1) ∧
        ((a.finish_pomodoro today).1.session.pomodoros_in_cycle = 0 ↔
          a.settings.pomodoros_for_long_break ≤ a.session.pomodoros_in_cycle + 1)) ∧
    (a.settings.pomodoros_for_long_break = 2 →
     a.session.pomodoros_in_cycle = 0 →
     a.session.last_date = today →
     a.session.pomodoros_completed_today + 2 < u32Mod →
     a.session.total_focus_mins_today + a.settings.pomodoro_mins
        + a.settings.pomodoro_mins < u32Mod →
        (a.start_pomodoro.complete_early today).2 =
          some (.PomodoroComplete (a.session.pomodoros_completed_today + 1) false) ∧
        (a.start_pomodoro.complete_early today).1.state =
          .BreakActive false (a.settings.short_break_mins * 60 % u32Mod)
            (a.settings.short_break_mins * 60 % u32Mod) ∧
        ((a.start_pomodoro.complete_early
            today).1.skip_break.start_pomodoro.complete_early today).2 =
          some (.PomodoroComplete (a.session.pomodoros_completed_today + 2) true) ∧
        ((a.start_pomodoro.complete_early
            today).1.skip_break.start_pomodoro.complete_early today).1.state =
          .BreakActive true (a.settings.long_break_mins * 60 % u32Mod)
            (a.settings.long_break_mins * 60 % u32Mod) ∧
        ((a.start_pomodoro.complete_early
            today).1.skip_break.start_pomodoro.complete_early
            today).1.session.pomodoros_in_cycle = 0) := by
  constructor
  · intro hy
    have hs1 : (a.session.complete_pomodoro today
        a.settings.pomodoro_mins).pomodoros_in_cycle = a.session.pomodoros_in_cycle + 1 :=
      complete_pomodoro_cycle a.session today a.settings.pomodoro_mins hy
    by_cases hil : a.settings.pomodoros_for_long_break ≤ a.session.pomodoros_in_cycle + 1 <;>
      simp [App.finish_pomodoro, Session.is_long_break_due, hs1, hil, Session.reset_cycle,
        apply_ite Session.pomodoros_in_cycle, CompletionEvent.isLongFlag]
  · intro hth hcy hd hc2 hf2
    obtain ⟨st, se, ss⟩ := a
    obtain ⟨pc, tf, cy, ld⟩ := ss
    simp only at hth hcy hd hc2 hf2
    subst hcy
    subst hd
    have e1 : (pc + 1) % u32Mod = pc + 1 := Nat.mod_eq_of_lt (by omega)
    have e2 : (tf + se.pomodoro_mins) % u32Mod = tf + se.pomodoro_mins :=
      Nat.mod_eq_of_lt (by omega)
    have e3 : (0 + 1) % u32Mod = 1 := Nat.mod_eq_of_lt (by norm_num [u32Mod])
    have e4 : (pc + 1 + 1) % u32Mod = pc + 1 + 1 := Nat.mod_eq_of_lt (by omega)
    have e5 : (tf + se.pomodoro_mins + se.pomodoro_mins) % u32Mod
        = tf + se.pomodoro_mins + se.pomodoro_mins := Nat.mod_eq_of_lt (by omega)
    have e6 : (1 + 1) % u32Mod = 2 := Nat.mod_eq_of_lt (by norm_num [u32Mod])
    simp [App.start_pomodoro, App.complete_early, App.finish_pomodoro, App.skip_break,
      Session.complete_pomodoro, Session.check_day_rollover, Session.is_long_break_due,
      Session.reset_cycle, hth, e1, e2, e3, e4, e5, e6]

/-- Claim C3 witness: `c3_long_break_cycle` at a concrete app with
threshold 2 and a fresh cycle. -/
theorem c3_long_break_cycle_witness :
    (appC3.session.pomodoros_in_cycle + 1 < u32Mod ∧
      ((appC3.finish_pomodoro 4).2).isLongFlag
        = decide (appC3.settings.pomodoros_for_long_break ≤
            appC3.session.pomodoros_in_cycle + 1)) ∧
    (appC3.settings.pomodoros_for_long_break = 2 ∧
      (appC3.start_pomodoro.complete_early 4).2 =
        some (.PomodoroComplete (appC3.session.pomodoros_completed_today + 1) false) ∧
      ((appC3.start_pomodoro.complete_early
          4).1.skip_break.start_pomodoro.complete_early 4).2 =
        some (.PomodoroComplete (appC3.session.pomodoros_completed_today + 2) true) ∧
      ((appC3.start_pomodoro.complete_early
          4).1.skip_break.start_pomodoro.complete_early
          4).1.session.pomodoros_in_cycle = 0) :=
  ⟨⟨by decide, ((c3_long_break_cycle appC3 4).1 (by decide)).1⟩,
   ⟨rfl,
    ((c3_long_break_cycle appC3 4).2 rfl rfl rfl (by decide) (by decide)).1,
    ((c3_long_break_cycle appC3 4).2 rfl rfl rfl (by decide) (by decide)).2.2.1,
    ((c3_long_break_cycle appC3 4).2 rfl rfl rfl (by decide) (by decide)).2.2.2.2⟩⟩

/-- Claim C1 (counterexample): with `pomodoro_mins = 1`, sixty `tick`
calls after `start_pomodoro` produce no completion event at all and do
not reach a break: the countdown starts at 60 and the sixtieth tick
only brings `remaining_secs` to 0, so the completion fires on the
sixty-first call. -/
theorem c1_counterexample :
    ¬ ((appC1.start_pomodoro.tickRun 0 60).2 =
        [CompletionEvent.PomodoroComplete 1 false] ∧
       (appC1.start_pomodoro.tickRun 0 60).1.state.is_break = true) := by
  decide

/-- Claim C1 (amended): with `pomodoro_mins = 1`, a threshold above 1
and a fresh session, sixty-one `tick` calls after `start_pomodoro`
yield exactly one `PomodoroComplete{count = 1, is_long_break = false}`
event and leave the app in a short `BreakActive` phase. -/
theorem c1_amended (a : App) (today : Nat)
    (hpm : a.settings.pomodoro_mins = 1)
    (hth : 1 < a.settings.pomodoros_for_long_break)
    (hc0 : a.session.pomodoros_completed_today = 0)
    (hy0 : a.session.pomodoros_in_cycle = 0)
    (hf : a.session.total_focus_mins_today + 1 < u32Mod)
    (hd : a.session.last_date = today) :
    (a.start_pomodoro.tickRun today 61).2 = [CompletionEvent.PomodoroComplete 1 false] ∧
    (a.start_pomodoro.tickRun today 61).1.state =
      .BreakActive false (a.settings.short_break_mins * 60 % u32Mod)
        (a.settings.short_break_mins * 60 % u32Mod) := by
  have hstart : a.start_pomodoro = { a with state := .PomodoroActive 60 60 } := by
    simp [App.start_pomodoro, hpm]
    norm_num [u32Mod]
  have h60 : ({ a with state := .PomodoroActive 60 60 } : App).tickRun today 60
      = ({ a with state := .PomodoroActive 0 60 }, []) := by
    simpa using tickRun_countdown today 60 { a with state := .PomodoroActive 60 60 }
      60 60 rfl (le_refl 60)
  have hnot : ¬ (a.settings.pomodoros_for_long_break ≤ a.session.pomodoros_in_cycle + 1) := by
    rw [hy0]
    omega
  have hfin := finish_pomodoro_spec { a with state := .PomodoroActive 0 60 } today
    hd (by show a.session.pomodoros_completed_today + 1 < u32Mod
           rw [hc0]; norm_num [u32Mod])
    (by show a.session.total_focus_mins_today + a.settings.pomodoro_mins < u32Mod
        rw [hpm]; exact hf)
    (by show a.session.pomodoros_in_cycle + 1 < u32Mod
        rw [hy0]; norm_num [u32Mod])
  have h1 : ({ a with state := .PomodoroActive 0 60 } : App).tickRun today 1
      = ((({ a with state := .PomodoroActive 0 60 } : App).finish_pomodoro today).1,
         [(({ a with state := .PomodoroActive 0 60 } : App).finish_pomodoro today).2]) := by
    simp [App.tickRun, App.tick]
  rw [hstart, show (61 : Nat) = 60 + 1 from rfl, tickRun_add today 60 1, h60]
  simp only [h1, hfin]
  simp [hnot, hc0]

/-- Claim C1 witness: `c1_amended` at the concrete one-minute app. -/
theorem c1_amended_witness :
    (appC1.settings.pomodoro_mins = 1 ∧
     1 < appC1.settings.pomodoros_for_long_break ∧
     appC1.session.pomodoros_completed_today = 0 ∧
     appC1.session.pomodoros_in_cycle = 0 ∧
     appC1.session.total_focus_mins_today + 1 < u32Mod ∧
     appC1.session.last_date = 0) ∧
    (appC1.start_pomodoro.tickRun 0 61).2 = [CompletionEvent.PomodoroComplete 1 false] ∧
    (appC1.start_pomodoro.tickRun 0 61).1.state =
      .BreakActive false (appC1.settings.short_break_mins * 60 % u32Mod)
        (appC1.settings.short_break_mins * 60 % u32Mod) :=
  ⟨⟨rfl, by decide, rfl, rfl, by decide, rfl⟩,
   c1_amended appC1 0 rfl (by decide) rfl rfl (by decide) rfl⟩

/-- Claim C10 (counterexample): with `pomodoro_mins = 0` and a
long-break threshold of 1, the first tick after `start_pomodoro` does
not increment `pomodoros_in_cycle` by 1 — the counter reaches the
threshold and is reset to 0. -/
theorem c10_counterexample :
    ¬ ((appC10.start_pomodoro.tick 0).1.session.pomodoros_in_cycle
        = appC10.session.pomodoros_in_cycle + 1) := by
  decide

/-- Claim C10 (amended): with `pomodoro_mins = 0`, `start_pomodoro`
enters `PomodoroActive{0, 0}` and the very first tick runs the full
completion path: one more completed pomodoro, zero extra focus
minutes, the cycle counter incremented by 1 — or reset to 0 if that
increment reaches the long-break threshold — a `PomodoroComplete`
event carrying the updated count, and a transition to `BreakActive`. -/
theorem c10_amended (a : App) (today : Nat)
    (hpm : a.settings.pomodoro_mins = 0)
    (hd : a.session.last_date = today)
    (hc : a.session.pomodoros_completed_today + 1 < u32Mod)
    (hf : a.session.total_focus_mins_today < u32Mod)
    (hy : a.session.pomodoros_in_cycle + 1 < u32Mod) :
    a.start_pomodoro.state = .PomodoroActive 0 0 ∧
    (a.start_pomodoro.tick today).2.1 = true ∧
    (a.start_pomodoro.tick today).2.2 =
      some (.PomodoroComplete (a.session.pomodoros_completed_today + 1)
        (decide (a.settings.pomodoros_for_long_break ≤ a.session.pomodoros_in_cycle + 1))) ∧
    (a.start_pomodoro.tick today).1.session.pomodoros_completed_today
      = a.session.pomodoros_completed_today + 1 ∧
    (a.start_pomodoro.tick today).1.session.total_focus_mins_today
      = a.session.total_focus_mins_today ∧
    (a.start_pomodoro.tick today).1.session.pomodoros_in_cycle
      = (if a.settings.pomodoros_for_long_break ≤ a.session.pomodoros_in_cycle + 1
         then 0 else a.session.pomodoros_in_cycle + 1) ∧
    (a.start_pomodoro.tick today).1.state.is_break = true := by
  have hstart : a.start_pomodoro = { a with state := .PomodoroActive 0 0 } := by
    simp [App.start_pomodoro, hpm]
  have hfin := finish_pomodoro_spec { a with state := .PomodoroActive 0 0 } today
    hd hc
    (by show a.session.total_focus_mins_today + a.settings.pomodoro_mins < u32Mod
        rw [hpm]; omega)
    hy
  have htick : ({ a with state := .PomodoroActive 0 0 } : App).tick today
      = ((({ a with state := .PomodoroActive 0 0 } : App).finish_pomodoro today).1, true,
         some (({ a with state := .PomodoroActive 0 0 } : App).finish_pomodoro today).2) := by
    simp [App.tick]
  rw [hstart]
  refine ⟨rfl, ?_, ?_, ?_, ?_, ?_, ?_⟩ <;>
    rw [htick] <;> simp [hfin, hpm, TimerState.is_break]

/-- Claim C10 witness: `c10_amended` at the concrete zero-length
pomodoro app with threshold 1. -/
theorem c10_amended_witness :
    (appC10.settings.pomodoro_mins = 0 ∧
     appC10.session.last_date = 0 ∧
     appC10.session.pomodoros_completed_today + 1 < u32Mod ∧
     appC10.session.total_focus_mins_today < u32Mod ∧
     appC10.session.pomodoros_in_cycle + 1 < u32Mod) ∧
    (appC10.start_pomodoro.state = .PomodoroActive 0 0 ∧
     (appC10.start_pomodoro.tick 0).2.1 = true ∧
     (appC10.start_pomodoro.tick 0).2.2 =
       some (.PomodoroComplete (appC10.session.pomodoros_completed_today + 1)
         (decide (appC10.settings.pomodoros_for_long_break ≤
            appC10.session.pomodoros_in_cycle + 1))) ∧
     (appC10.start_pomodoro.tick 0).1.session.pomodoros_completed_today
       = appC10.session.pomodoros_completed_today + 1 ∧
     (appC10.start_pomodoro.tick 0).1.session.total_focus_mins_today
       = appC10.session.total_focus_mins_today ∧
     (appC10.start_pomodoro.tick 0).1.session.pomodoros_in_cycle
       = (if appC10.settings.pomodoros_for_long_break ≤
            appC10.session.pomodoros_in_cycle + 1
          then 0 else appC10.session.pomodoros_in_cycle + 1) ∧
     (appC10.start_pomodoro.tick 0).1.state.is_break = true) :=
  ⟨⟨rfl, rfl, by decide, by decide, by decide⟩,
   c10_amended appC10 0 rfl rfl (by decide) (by decide) (by decide)⟩

end Pomobar
